import Mathlib

/-!
Verification development for the gdax command-line trading client
(single source file gdax.py).  The Python source is shallowly embedded:

* exact decimals (the decimal.Decimal values the source manipulates) are
  pairs of an integer mantissa and a power-of-ten exponent;
* JSON values are an inductive type; server responses are a record of the
  HTTP status, the raw response text and the (optional) parsed JSON body;
* the request signer (GDAXAuth.__call__) is embedded on top of executable
  byte-level SHA-256, HMAC and base64 definitions;
* every fallible Python code path (an uncaught exception) is an
  Option-valued result, with none marking the exception;
* console output (print calls) is an explicit list of emitted strings;
* the polling loop of watchOrder is driven by the finite list of server
  responses the successive getOrder calls observe.
-/

namespace Gdax

/-! ## Exact decimals (Python decimal.Decimal) -/

/-- An exact decimal number: mantissa times ten to the minus exponent.
This is the value/shape of a Python Decimal built from a plain numeric
string (no exponent notation): Decimal("0.50") is ⟨50, 2⟩. -/
structure Dec where
  m : Int
  e : Nat
  deriving DecidableEq, Repr

/-- Rational value denoted by a decimal. -/
def Dec.val (d : Dec) : ℚ := (d.m : ℚ) / (10 : ℚ) ^ d.e

/-- Round-half-even (banker's rounding) of the fraction num/den to an
integer, for natural operands with den positive.  This is the rounding the
default Python decimal context applies, hence what a format spec such as
{:.8f} applies to a Decimal (the source never changes the context and
never uses the ROUND_DOWN it imports). -/
def rne (num den : Nat) : Nat :=
  let q := num / den
  let r := num % den
  if 2 * r < den then q
  else if den < 2 * r then q + 1
  else if q % 2 = 0 then q else q + 1

/-- Digits of a natural number, zero-padded on the left to a given width
(the fractional part of a fixed-point rendering). -/
def natPad (width n : Nat) : String :=
  let s := toString n
  String.mk (List.replicate (width - s.length) '0') ++ s

/-- Magnitude of a decimal scaled to a given number of fractional digits,
rounded half-even: the integer n such that the rendering is n / 10^prec in
absolute value. -/
def Dec.scaled (prec : Nat) (d : Dec) : Nat :=
  rne (d.m.natAbs * 10 ^ prec) (10 ^ d.e)

/-- Fixed-point rendering of a decimal with exactly prec fractional
digits: the semantics of the Python format spec {:.precf} applied to a
Decimal under the default (half-even) context. -/
def formatFixed (prec : Nat) (d : Dec) : String :=
  let n := Dec.scaled prec d
  let sign := if d.m < 0 then "-" else ""
  sign ++ toString (n / 10 ^ prec) ++ "." ++ natPad prec (n % 10 ^ prec)

/-- Decimal denoted by the fixed-point rendering: the value a fresh
Decimal(...) built from the formatted string carries. -/
def Dec.quantize (prec : Nat) (d : Dec) : Dec :=
  ⟨(if d.m < 0 then -1 else 1) * (Dec.scaled prec d : Int), prec⟩

/-- Value of a single decimal digit character. -/
def digitVal (c : Char) : Option Nat :=
  if c.isDigit then some (c.toNat - 48) else none

/-- Value of a digit string (most significant first). -/
def digitsVal (cs : List Char) : Option Nat :=
  (cs.mapM digitVal).map (List.foldl (fun a d => a * 10 + d) 0)

/-- Parsing of a plain decimal numeral, the constructor Decimal(str) of
the Python decimal module restricted to the numerals this client ever
builds or receives: an optional sign, digits, an optional fraction.  (The
Python constructor additionally accepts exponent notation, spaces and
specials such as NaN; none of those occur here.)  none models the
decimal.InvalidOperation the constructor raises on malformed input. -/
def parseDecimal (s : String) : Option Dec :=
  let cs := s.toList
  let signed : Bool × List Char :=
    match cs with
    | '-' :: r => (true, r)
    | '+' :: r => (false, r)
    | _ => (false, cs)
  match (signed.2).splitOn '.' with
  | [ds] =>
    match ds, digitsVal ds with
    | _ :: _, some v => some ⟨(if signed.1 then -1 else 1) * (v : Int), 0⟩
    | _, _ => none
  | [is, fs] =>
    match is ++ fs, digitsVal (is ++ fs) with
    | _ :: _, some v => some ⟨(if signed.1 then -1 else 1) * (v : Int), fs.length⟩
    | _, _ => none
  | _ => none

/-! ## JSON values -/

/-- A JSON value as the requests library materializes it.  Numbers keep
their exact decimal reading (this client only ever receives money fields
as JSON strings, so the lossy binary-float reading of a bare JSON number
never matters to the claims below). -/
inductive Json where
  | null : Json
  | bool (b : Bool) : Json
  | num (m : Int) (e : Nat) : Json
  | str (s : String) : Json
  | arr (xs : List Json) : Json
  | obj (fields : List (String × Json)) : Json

/-- First value bound to a key in an object field list (Python dicts have
unique keys; requests builds them from JSON objects). -/
def lookupField (fs : List (String × Json)) (k : String) : Option Json :=
  match fs with
  | [] => none
  | (k2, v) :: rest => if k2 == k then some v else lookupField rest k

/-- Python subscript value[k] for a string key: a value for object fields,
none for a missing key (KeyError) or a non-dict subject (TypeError); both
exceptions are uncaught everywhere this client subscripts. -/
def pyIndex (j : Json) (k : String) : Option Json :=
  match j with
  | .obj fs => lookupField fs k
  | _ => none

/-- Python membership test k in value: key lookup for dicts, element
equality for lists, substring for strings; none is the TypeError of
iterating a number, boolean or None. -/
def pyContains (j : Json) (k : String) : Option Bool :=
  match j with
  | .obj fs => some (lookupField fs k).isSome
  | .arr xs => some (xs.any fun x => match x with | .str s => s == k | _ => false)
  | .str s => some (1 < (s.splitOn k).length)
  | _ => none

/-- Comparison of a JSON value against a string literal, as Python ==
behaves: equal strings compare true, any non-string compares false. -/
def isStrEq (j : Json) (s : String) : Bool :=
  match j with
  | .str t => t == s
  | _ => false

/-- Test for the empty JSON object, the Python comparison result == {}. -/
def isEmptyObj (j : Json) : Bool :=
  match j with
  | .obj [] => true
  | _ => false

/-- Plain decimal rendering of a mantissa/exponent pair (used for JSON
numbers inside serialized output). -/
def decRepr (d : Dec) : String :=
  if d.e == 0 then toString d.m
  else
    let sign := if d.m < 0 then "-" else ""
    sign ++ toString (d.m.natAbs / 10 ^ d.e) ++ "." ++ natPad d.e (d.m.natAbs % 10 ^ d.e)

mutual

/-- JSON serialization of a value, the json.dumps of the source.  The
source passes indent=4, which only changes inter-token whitespace; this
rendering is the compact form with the same tokens in the same order.
String escaping is not modelled (no string this client serializes needs
it). -/
def jsonDumps : Json → String
  | .null => "null"
  | .bool true => "true"
  | .bool false => "false"
  | .num m e => decRepr ⟨m, e⟩
  | .str s => "\"" ++ s ++ "\""
  | .arr xs => "[" ++ jsonDumpsArr xs ++ "]"
  | .obj fs => "\x7b" ++ jsonDumpsObj fs ++ "\x7d"

/-- Comma-separated serialization of array elements. -/
def jsonDumpsArr : List Json → String
  | [] => ""
  | [x] => jsonDumps x
  | x :: xs => jsonDumps x ++ ", " ++ jsonDumpsArr xs

/-- Comma-separated serialization of object fields. -/
def jsonDumpsObj : List (String × Json) → String
  | [] => ""
  | [(k, v)] => "\"" ++ k ++ "\": " ++ jsonDumps v
  | (k, v) :: fs => "\"" ++ k ++ "\": " ++ jsonDumps v ++ ", " ++ jsonDumpsObj fs

end

/-- Python str(value) as the format placeholder \x7b\x7d renders it:
strings verbatim, True/False/None in Python spelling, numbers in decimal.
Containers fall back to the JSON rendering (Python would use repr; no
claim touches that path). -/
def pyStr (j : Json) : String :=
  match j with
  | .null => "None"
  | .bool true => "True"
  | .bool false => "False"
  | .num m e => decRepr ⟨m, e⟩
  | .str s => s
  | j => jsonDumps j

/-- Python str.lower over the characters this client compares (the
user's typed confirmation): ASCII lowercasing character by character. -/
def pyLower (s : String) : String := String.mk (s.toList.map Char.toLower)

/-- Python Decimal(value) applied to a JSON field: parses a string,
converts an exact number, maps booleans through int; none is the uncaught
exception on anything else (TypeError) or on a malformed string
(decimal.InvalidOperation). -/
def decimalOfJson (j : Json) : Option Dec :=
  match j with
  | .str s => parseDecimal s
  | .num m e => some ⟨m, e⟩
  | .bool b => some ⟨if b then 1 else 0, 0⟩
  | _ => none

/-- Python format spec \x7b:.precf\x7d applied directly to a JSON field
(not via Decimal).  A number formats (booleans count as ints); a string —
which is how this exchange encodes every money amount — raises ValueError
(unknown format code f for str), and so does anything else: none marks
that uncaught exception. -/
def fmtFixedOfJson (prec : Nat) (j : Json) : Option String :=
  match j with
  | .num m e => some (formatFixed prec ⟨m, e⟩)
  | .bool b => some (formatFixed prec ⟨if b then 1 else 0, 0⟩)
  | _ => none

/-! ## The api wrapper (gdax.py lines 57-78)

A server response is modelled by the three observations the source makes
of the requests object r: the status code, the raw text, and the result
of r.json() (none when the body does not parse, i.e. r.json() raises
ValueError). -/

/-- One HTTP response as the source observes it. -/
structure Response where
  status : Nat
  rawText : String
  parsed : Option Json

/-- The optional Response line of the api error message: r.json()
subscripted at message, appended if it is a string.  A parse failure
(ValueError) is caught and the line is skipped; but a body that parses to
something without a string message field raises an uncaught KeyError or
TypeError, modelled as none. -/
def apiErrLine (parsed : Option Json) : Option (Option String) :=
  match parsed with
  | none => some none
  | some j =>
    match pyIndex j "message" with
    | some (.str s) => some (some ("Response: " ++ s ++ "\n"))
    | _ => none

/-- Result of one api(endpoint, params, delete, notFoundOK) call, given
the server response: none is an uncaught exception; otherwise the pair of
the returned value (a JSON value, or none for the Python None an error
path returns) and the list of printed messages.  The delete flag only
selects the HTTP verb, which the caller records; response handling
ignores it, exactly as in the source. -/
def api (endpoint : String) (params : Option Json) (delete notFoundOK : Bool)
    (resp : Response) : Option (Option Json × List String) :=
  let _ := delete
  if resp.status == 200 || (notFoundOK && resp.status == 404) then
    if resp.rawText == "" then some (some (Json.obj []), [])
    else
      match resp.parsed with
      | some j => some (some j, [])
      | none => none
  else
    match apiErrLine resp.parsed with
    | none => none
    | some line =>
      let msg :=
        "Error getting data from API: " ++ endpoint ++ "\n"
        ++ line.getD ""
        ++ "Params: " ++ (match params with
            | some p => jsonDumps p
            | none => "None") ++ "\n"
        ++ "Raw: " ++ resp.rawText ++ "\n"
      some (none, [msg])

/-! ## getOrder (gdax.py lines 130-159) -/

/-- The unconditional status print of getOrder for a found order, or none
for the uncaught exception one of its subscripts, Decimal conversions or
format specs raises.  The done/settled branch formats order[funds] with
:.2f directly (without Decimal), which raises ValueError whenever funds
is the JSON string this exchange sends. -/
def getOrderStatusPrint (order : Json) : Option String :=
  match pyIndex order "status" with
  | none => none
  | some stv =>
    if isStrEq stv "done" || isStrEq stv "settled" then
      match pyIndex order "side" with
      | none => none
      | some sd =>
        let verb := if isStrEq sd "sell" then "Sold" else "Bought"
        match pyIndex order "filled_size" with
        | none => none
        | some fsj =>
          match decimalOfJson fsj with
          | none => none
          | some fd =>
            match pyIndex order "funds" with
            | none => none
            | some fj =>
              match fmtFixedOfJson 2 fj with
              | none => none
              | some fstr => some (verb ++ formatFixed 8 fd ++ " BTC at $" ++ fstr)
    else if isStrEq stv "rejected" then some "Order was rejected"
    else if !(isStrEq stv "open") && !(isStrEq stv "pending") then
      match stv with
      | .str s => some ("Error processing order (status: " ++ s ++ ")")
      | _ => none
    else
      match pyIndex order "type", pyIndex order "side",
            pyIndex order "size", pyIndex order "price" with
      | some tv, some sv, some zv, some pv =>
        match decimalOfJson zv, decimalOfJson pv with
        | some zd, some pd =>
          some (pyStr tv ++ " " ++ pyStr sv ++ " " ++ formatFixed 8 zd
            ++ "BTC at $" ++ formatFixed 2 pd ++ " (pending)")
        | _, _ => none
      | _, _, _, _ => none

/-- getOrder(oid, silent) given the server response to its lookup: none
is an uncaught exception; otherwise the returned value (none is the
Python None standing for NotFound) together with everything printed.  An
api error return (None) and a body whose message field is NotFound take
the same not-found path; any found order goes through the unconditional
status print. -/
def getOrderM (oid : String) (silent : Bool) (resp : Response) :
    Option (Option Json × List String) :=
  match api ("orders/" ++ oid) none false true resp with
  | none => none
  | some (orderOpt, pr) =>
    let notFoundRet : Option (Option Json × List String) :=
      some (none, pr ++ if silent then [] else ["Order not found"])
    match orderOpt with
    | none => notFoundRet
    | some order =>
      match pyContains order "message" with
      | none => none
      | some true =>
        match pyIndex order "message" with
        | none => none
        | some v =>
          if isStrEq v "NotFound" then notFoundRet
          else
            match getOrderStatusPrint order with
            | none => none
            | some line => some (some order, pr ++ [line])
      | some false =>
        match getOrderStatusPrint order with
        | none => none
        | some line => some (some order, pr ++ [line])

/-! ## placeOrder (gdax.py lines 162-191) -/

/-- The order dict placeOrder builds: the fixed product, the requested
type and side, size and price rendered with exactly 8 fractional digits,
and post_only set to false exactly for market orders. -/
def orderBody (otype side : String) (sizeD priceD : Dec) : Json :=
  Json.obj [
    ("product_id", .str "BTC-USD"),
    ("type", .str otype),
    ("side", .str side),
    ("size", .str (formatFixed 8 sizeD)),
    ("price", .str (formatFixed 8 priceD)),
    ("post_only", .bool (!(otype == "market")))]

/-- The order dict as built from the raw string arguments: Decimal
parsing of size and price, then the body; none is the uncaught
decimal.InvalidOperation on a malformed amount. -/
def placedBody (otype side size price : String) : Option Json :=
  match parseDecimal size, parseDecimal price with
  | some sd, some pd => some (orderBody otype side sd pd)
  | _, _ => none

/-- Everything one placeOrder call did: the value it returned, whether it
POSTed to the orders endpoint, whether it read the confirmation prompt,
and what it printed (prompt text included). -/
structure PlaceResult where
  ret : Option Json
  apiCalled : Bool
  prompted : Bool
  prints : List String

/-- placeOrder(otype, side, size, price, silent) given the answer the
user would type and the server response an orders POST would get; none is
an uncaught exception.  Two source subtleties are preserved: the
confirmation prompt re-reads the formatted size and price through
Decimal(...) (the formatted string always denotes its 8-digit quantized
value, modelled by Dec.quantize); and when silent is true the local
variable action is never assigned, so evaluating action.lower() in the
send condition raises UnboundLocalError before anything is sent. -/
def placeOrderM (otype side size price : String) (silent : Bool)
    (userInput : String) (ordersResp : Response) : Option PlaceResult :=
  match parseDecimal size, parseDecimal price with
  | some sd, some pd =>
    let order := orderBody otype side sd pd
    if silent then none
    else
      let prompt :=
        "Place " ++ otype ++ " " ++ side ++ " order for "
        ++ formatFixed 8 (Dec.quantize 8 sd) ++ " BTC at $"
        ++ formatFixed 2 (Dec.quantize 8 pd) ++ "/coin (y/N)? "
      if pyLower userInput == "y" then
        match api "orders" (some order) false false ordersResp with
        | none => none
        | some (result, pr) =>
          match result with
          | none => some ⟨none, true, true, [prompt] ++ pr ++ ["Failed to place order!"]⟩
          | some res =>
            match pyIndex res "id" with
            | some (.str idv) =>
              some ⟨some res, true, true,
                [prompt] ++ pr ++ ["Order placed successfully (ID " ++ idv ++ ")"]⟩
            | _ => none
      else
        some ⟨none, false, true, [prompt, "Failed to place order!"]⟩
  | _, _ => none

/-! ## cancelOrder (gdax.py lines 194-212) -/

/-- The cancellation confirmation print, or none for its uncaught
exception: order[type] + order[side] needs two strings, and order[size]
and order[price] are fed to :.8f and :.2f directly (without Decimal), so
the string-encoded amounts this exchange sends raise ValueError. -/
def cancelSuccessPrint (order : Json) : Option String :=
  match pyIndex order "type", pyIndex order "side" with
  | some (.str t), some (.str sv) =>
    match pyIndex order "size", pyIndex order "price" with
    | some zj, some pj =>
      match fmtFixedOfJson 8 zj, fmtFixedOfJson 2 pj with
      | some z, some p =>
        some ("Cancelled " ++ t ++ sv ++ " order for " ++ z ++ " BTC at $" ++ p ++ "/coin")
      | _, _ => none
    | _, _ => none
  | _, _ => none

/-- Everything one cancelOrder call did: the value it returned, whether
the DELETE to the cancel endpoint was issued, and what was printed. -/
structure CancelResult where
  ret : Option Json
  deleteIssued : Bool
  prints : List String

/-- cancelOrder(oid, silent), given the response its preliminary getOrder
lookup observes and the response a DELETE would observe; none is an
uncaught exception.  getOrder is called with its default silent=True.  A
not-found lookup short-circuits: the function returns None and the DELETE
is never issued. -/
def cancelOrderM (oid : String) (silent : Bool) (getResp delResp : Response) :
    Option CancelResult :=
  match getOrderM oid true getResp with
  | none => none
  | some (none, pr) =>
    some ⟨none, false, pr ++ if silent then [] else ["Order does not exist"]⟩
  | some (some order, pr) =>
    match api ("orders/" ++ oid) none true true delResp with
    | none => none
    | some (result, pr2) =>
      if silent then some ⟨result, true, pr ++ pr2⟩
      else
        match result with
        | some v =>
          if isEmptyObj v then
            match cancelSuccessPrint order with
            | none => none
            | some line => some ⟨result, true, pr ++ pr2 ++ [line]⟩
          else some ⟨result, true, pr ++ pr2 ++ ["Failed to cancel order!"]⟩
        | none => some ⟨result, true, pr ++ pr2 ++ ["Failed to cancel order!"]⟩

/-! ## watchOrder (gdax.py lines 215-220) -/

/-- Outcome of a watchOrder run driven by a finite list of server
responses: crash is an uncaught exception inside some getOrder poll;
outOfPolls means the supplied response list ended while the loop still
wanted another poll; finished records how many time.sleep(1) calls
separated the polls, the last snapshot the loop observed, and the value
the function returns - the source returns plain None, never the
snapshot. -/
inductive WatchOutcome where
  | crash : WatchOutcome
  | outOfPolls : WatchOutcome
  | finished (sleeps : Nat) (lastPolled : Option Json) (ret : Option Json) : WatchOutcome

/-- The while loop of watchOrder: keep polling (one sleep before each
re-poll) while the current snapshot exists with status open or pending. -/
def watchLoop (oid : String) (silent : Bool) :
    Option Json → List Response → Nat → WatchOutcome
  | cur, polls, sleeps =>
    match cur with
    | none => .finished sleeps none none
    | some o =>
      match pyIndex o "status" with
      | none => .crash
      | some stv =>
        if isStrEq stv "open" || isStrEq stv "pending" then
          match polls with
          | [] => .outOfPolls
          | r :: rest =>
            match getOrderM oid silent r with
            | none => .crash
            | some (next, _) => watchLoop oid silent next rest (sleeps + 1)
        else .finished sleeps (some o) none

/-- watchOrder(oid, silent) given the successive responses its getOrder
polls observe. -/
def watchOrderM (oid : String) (silent : Bool) (polls : List Response) : WatchOutcome :=
  match polls with
  | [] => .outOfPolls
  | r :: rest =>
    match getOrderM oid silent r with
    | none => .crash
    | some (first, _) => watchLoop oid silent first rest 0

/-! ## Bytes, base64, SHA-256 and HMAC

Executable byte-level definitions of the primitives GDAXAuth.__call__
composes: base64 (RFC 4648), SHA-256 (FIPS 180-4) and HMAC (RFC 2104).
Bytes are naturals below 256; 32-bit words are naturals kept below 2^32
by explicit reduction. -/

/-- ASCII encoding of a string, the message.encode of the source: none is
the UnicodeEncodeError on a non-ASCII character. -/
def asciiBytes (s : String) : Option (List Nat) :=
  if s.toList.all (fun c => c.toNat < 128) then some (s.toList.map Char.toNat)
  else none

/-- The base64 alphabet, indexed by 6-bit value. -/
def b64Alphabet : List Char :=
  "ABCDEFGHIJKLMNOPQRSTUVWXYZabcdefghijklmnopqrstuvwxyz0123456789+/".toList

/-- Character encoding a 6-bit group. -/
def b64Char (n : Nat) : Char := b64Alphabet.getD n '?'

/-- Base64 encoding of a byte list, three bytes to four characters with =
padding. -/
def base64encode : List Nat → String
  | [] => ""
  | [a] =>
    String.mk [b64Char (a / 4), b64Char (a % 4 * 16), '=', '=']
  | [a, b] =>
    String.mk [b64Char (a / 4), b64Char (a % 4 * 16 + b / 16), b64Char (b % 16 * 4), '=']
  | a :: b :: c :: rest =>
    String.mk [b64Char (a / 4), b64Char (a % 4 * 16 + b / 16),
      b64Char (b % 16 * 4 + c / 64), b64Char (c % 64)] ++ base64encode rest

/-- Value of one base64 alphabet character. -/
def b64Val (c : Char) : Option Nat :=
  match b64Alphabet.indexOf? c with
  | some i => some i
  | none => none

/-- Base64 decoding of a character list, four characters to three bytes,
accepting = padding only at the end.  (Python b64decode also discards
characters outside the alphabet before decoding; the secrets this models
are clean base64, where the two agree.) -/
def b64DecodeChars : List Char → Option (List Nat)
  | [] => some []
  | [a, b, '=', '='] =>
    match b64Val a, b64Val b with
    | some va, some vb => if vb % 16 == 0 then some [va * 4 + vb / 16] else none
    | _, _ => none
  | [a, b, c, '='] =>
    match b64Val a, b64Val b, b64Val c with
    | some va, some vb, some vc =>
      if vc % 4 == 0 then some [va * 4 + vb / 16, vb % 16 * 16 + vc / 4] else none
    | _, _, _ => none
  | a :: b :: c :: d :: rest =>
    match b64Val a, b64Val b, b64Val c, b64Val d, b64DecodeChars rest with
    | some va, some vb, some vc, some vd, some tail =>
      some ([va * 4 + vb / 16, vb % 16 * 16 + vc / 4, vc % 4 * 64 + vd] ++ tail)
    | _, _, _, _, _ => none
  | _ => none

/-- Base64 decoding of a string, the base64.b64decode of the source:
none is the binascii.Error an ill-formed input raises. -/
def base64decode (s : String) : Option (List Nat) := b64DecodeChars s.toList

/-- The 32-bit word modulus. -/
def w32 : Nat := 4294967296

/-- Right rotation of a 32-bit word. -/
def rotr (n x : Nat) : Nat := (x >>> n) ||| ((x &&& (2 ^ n - 1)) <<< (32 - n))

/-- Small sigma 0 of the SHA-256 message schedule. -/
def ssig0 (x : Nat) : Nat := (rotr 7 x) ^^^ (rotr 18 x) ^^^ (x >>> 3)

/-- Small sigma 1 of the SHA-256 message schedule. -/
def ssig1 (x : Nat) : Nat := (rotr 17 x) ^^^ (rotr 19 x) ^^^ (x >>> 10)

/-- Big sigma 0 of the SHA-256 compression function. -/
def bsig0 (x : Nat) : Nat := (rotr 2 x) ^^^ (rotr 13 x) ^^^ (rotr 22 x)

/-- Big sigma 1 of the SHA-256 compression function. -/
def bsig1 (x : Nat) : Nat := (rotr 6 x) ^^^ (rotr 11 x) ^^^ (rotr 25 x)

/-- Choice function of the compression rounds. -/
def chF (e f g : Nat) : Nat := (e &&& f) ^^^ ((e ^^^ (w32 - 1)) &&& g)

/-- Majority function of the compression rounds. -/
def majF (a b c : Nat) : Nat := (a &&& b) ^^^ (a &&& c) ^^^ (b &&& c)

/-- The 64 SHA-256 round constants of FIPS 180-4 (fractional parts of the
cube roots of the first 64 primes), written in decimal. -/
def sha256K : List Nat := [
  1116352408, 1899447441, 3049323471, 3921009573, 961987163, 1508970993,
  2453635748, 2870763221, 3624381080, 310598401, 607225278, 1426881987,
  1925078388, 2162078206, 2614888103, 3248222580, 3835390401, 4022224774,
  264347078, 604807628, 770255983, 1249150122, 1555081692, 1996064986,
  2554220882, 2821834349, 2952996808, 3210313671, 3336571891, 3584528711,
  113926993, 338241895, 666307205, 773529912, 1294757372, 1396182291,
  1695183700, 1986661051, 2177026350, 2456956037, 2730485921, 2820302411,
  3259730800, 3345764771, 3516065817, 3600352804, 4094571909, 275423344,
  430227734, 506948616, 659060556, 883997877, 958139571, 1322822218,
  1537002063, 1747873779, 1955562222, 2024104815, 2227730452, 2361852424,
  2428436474, 2756734187, 3204031479, 3329325298]

/-- The initial SHA-256 hash state of FIPS 180-4 (fractional parts of the
square roots of the first 8 primes), written in decimal. -/
def sha256H0 : List Nat := [
  1779033703, 3144134277, 1013904242, 2773480762, 1359893119, 2600822924,
  528734635, 1541459225]

/-- Big-endian 32-bit words from a byte list (length a multiple of 4). -/
def bytesToWordsBE : List Nat → List Nat
  | a :: b :: c :: d :: rest => (((a * 256 + b) * 256 + c) * 256 + d) :: bytesToWordsBE rest
  | _ => []

/-- Big-endian bytes of a number, fixed width. -/
def natToBytesBE : Nat → Nat → List Nat
  | 0, _ => []
  | k + 1, n => natToBytesBE k (n / 256) ++ [n % 256]

/-- SHA-256 padding: a 0x80 byte, zeros to 56 mod 64, and the bit length
as a big-endian 64-bit number. -/
def sha256Pad (msg : List Nat) : List Nat :=
  let l := msg.length
  msg ++ 0x80 :: List.replicate ((119 - l % 64) % 64) 0 ++ natToBytesBE 8 (8 * l)

/-- Extension of the 16-word block to the full 64-entry message
schedule, one new word per step. -/
def extendSchedule : List Nat → Nat → List Nat
  | ws, 0 => ws
  | ws, n + 1 =>
    let l := ws.length
    let w := (ssig1 (ws.getD (l - 2) 0) + ws.getD (l - 7) 0
      + ssig0 (ws.getD (l - 15) 0) + ws.getD (l - 16) 0) % w32
    extendSchedule (ws ++ [w]) n

/-- Working state of the compression function. -/
structure Sha256State where
  a : Nat
  b : Nat
  c : Nat
  d : Nat
  e : Nat
  f : Nat
  g : Nat
  h : Nat

/-- One compression round, consuming one round constant and one schedule
word. -/
def sha256Round (st : Sha256State) (kw : Nat × Nat) : Sha256State :=
  let t1 := (st.h + bsig1 st.e + chF st.e st.f st.g + kw.1 + kw.2) % w32
  let t2 := (bsig0 st.a + majF st.a st.b st.c) % w32
  ⟨(t1 + t2) % w32, st.a, st.b, st.c, (st.d + t1) % w32, st.e, st.f, st.g⟩

/-- Compression of one 64-byte block into the running hash state. -/
def sha256Block (hs : List Nat) (block : List Nat) : List Nat :=
  let ws := extendSchedule (bytesToWordsBE block) 48
  let i := Sha256State.mk (hs.getD 0 0) (hs.getD 1 0) (hs.getD 2 0) (hs.getD 3 0)
    (hs.getD 4 0) (hs.getD 5 0) (hs.getD 6 0) (hs.getD 7 0)
  let st := (sha256K.zip ws).foldl sha256Round i
  [(hs.getD 0 0 + st.a) % w32, (hs.getD 1 0 + st.b) % w32, (hs.getD 2 0 + st.c) % w32,
   (hs.getD 3 0 + st.d) % w32, (hs.getD 4 0 + st.e) % w32, (hs.getD 5 0 + st.f) % w32,
   (hs.getD 6 0 + st.g) % w32, (hs.getD 7 0 + st.h) % w32]

/-- Iterated block compression over a padded message, driven by the
number of remaining blocks. -/
def sha256Blocks : List Nat → List Nat → Nat → List Nat
  | hs, _, 0 => hs
  | hs, rest, n + 1 => sha256Blocks (sha256Block hs (rest.take 64)) (rest.drop 64) n

/-- SHA-256 digest (32 bytes) of a byte list. -/
def sha256 (msg : List Nat) : List Nat :=
  let padded := sha256Pad msg
  let hs := sha256Blocks sha256H0 padded (padded.length / 64)
  hs.flatMap (natToBytesBE 4)

/-- HMAC-SHA256 of a message under a key: keys longer than the 64-byte
block are hashed first, then padded with zeros; inner pad 0x36, outer pad
0x5c. -/
def hmacSha256 (key msg : List Nat) : List Nat :=
  let k0 := if 64 < key.length then sha256 key else key
  let kb := k0 ++ List.replicate (64 - k0.length) 0
  sha256 ((kb.map (fun x => x ^^^ 0x5c))
    ++ sha256 ((kb.map (fun x => x ^^^ 0x36)) ++ msg))

/-! ## GDAXAuth (gdax.py lines 34-54) -/

/-- The slice of a prepared requests object the signer reads. -/
structure PyRequest where
  method : String
  path_url : String
  body : Option String

/-- GDAXAuth.__call__: the header update the signer applies to a request,
given the timestamp string taken from the clock at signing time.  The
signed message is the timestamp, method, path and body (empty when
absent) concatenated in that order; the signature is the base64 of the
HMAC-SHA256 of that message under the base64-decoded secret.  none is the
uncaught exception of a secret that is not valid base64 or a message
outside ASCII. -/
def gdaxAuthCall (api_key secret_key passphrase : String) (timestamp : String)
    (req : PyRequest) : Option (List (String × String)) :=
  let message := timestamp ++ req.method ++ req.path_url ++ req.body.getD ""
  match base64decode secret_key, asciiBytes message with
  | some hmac_key, some msgBytes =>
    some [
      ("CB-ACCESS-SIGN", base64encode (hmacSha256 hmac_key msgBytes)),
      ("CB-ACCESS-TIMESTAMP", timestamp),
      ("CB-ACCESS-KEY", api_key),
      ("CB-ACCESS-PASSPHRASE", passphrase),
      ("Content-Type", "application/json")]
  | _, _ => none

/-! ## Sample server data used by concrete instances -/

/-- A pending limit-order snapshot as this exchange sends it (money
amounts as JSON strings). -/
def snapPending : Json := .obj [
  ("status", .str "pending"), ("type", .str "limit"), ("side", .str "buy"),
  ("size", .str "0.50000000"), ("price", .str "30000.00000000")]

/-- The same snapshot once the order is on the book. -/
def snapOpen : Json := .obj [
  ("status", .str "open"), ("type", .str "limit"), ("side", .str "buy"),
  ("size", .str "0.50000000"), ("price", .str "30000.00000000")]

/-- A completed snapshot.  Its funds field is a JSON number so that the
done-branch print of getOrder goes through; with the string encoding the
exchange actually uses, that print raises instead. -/
def snapDone : Json := .obj [
  ("status", .str "done"), ("side", .str "buy"),
  ("filled_size", .str "0.50000000"), ("funds", .num 15000 0)]

/-- A 200 response carrying a JSON body. -/
def respOf (j : Json) : Response := ⟨200, "x", some j⟩

/-- The NotFound body this exchange sends with a 404 and with some 200
responses. -/
def notFoundBody : Json := .obj [("message", .str "NotFound")]

/-- A 404 response carrying the NotFound body. -/
def resp404 : Response := ⟨404, "x", some notFoundBody⟩

/-! ## Theorems -/

/-- Sanity vector: the SHA-256 embedding reproduces the FIPS 180-4 digest
of the three-byte message abc. -/
theorem sha256_vector_abc :
    sha256 [97, 98, 99] = [0xba, 0x78, 0x16, 0xbf, 0x8f, 0x01, 0xcf, 0xea,
      0x41, 0x41, 0x40, 0xde, 0x5d, 0xae, 0x22, 0x23, 0xb0, 0x03, 0x61, 0xa3,
      0x96, 0x17, 0x7a, 0x9c, 0xb4, 0x10, 0xff, 0x61, 0xf2, 0x00, 0x15, 0xad] := by
  decide

set_option maxRecDepth 100000 in
/-- Sanity vector: the HMAC-SHA256 embedding reproduces RFC 4231 test
case 1 (twenty 0x0b key bytes, message Hi There). -/
theorem hmacSha256_vector_rfc4231 :
    hmacSha256 (List.replicate 20 0x0b) [72, 105, 32, 84, 104, 101, 114, 101] =
      [0xb0, 0x34, 0x4c, 0x61, 0xd8, 0xdb, 0x38, 0x53, 0x5c, 0xa8, 0xaf, 0xce,
       0xaf, 0x0b, 0xf1, 0x2b, 0x88, 0x1d, 0xc2, 0x00, 0xc9, 0x83, 0x3d, 0xa7,
       0x26, 0xe9, 0x37, 0x6c, 0x2e, 0x32, 0xcf, 0xf7] := by
  decide

/-- C1: for every request with method, path, body (possibly empty),
secret and signing-time timestamp, the signer produces exactly the four
authentication header values (plus the Content-Type it also sets), and
the signature header is the base64 of the HMAC-SHA256, keyed with the
base64-decoded secret, of the timestamp, method, path and body
concatenated in that order. -/
theorem C1_signer_headers (k s p ts m path : String) (body : Option String)
    (key msgB : List Nat)
    (h1 : base64decode s = some key)
    (h2 : asciiBytes (ts ++ m ++ path ++ body.getD "") = some msgB) :
    gdaxAuthCall k s p ts ⟨m, path, body⟩ = some [
      ("CB-ACCESS-SIGN", base64encode (hmacSha256 key msgB)),
      ("CB-ACCESS-TIMESTAMP", ts),
      ("CB-ACCESS-KEY", k),
      ("CB-ACCESS-PASSPHRASE", p),
      ("Content-Type", "application/json")] := by
  unfold gdaxAuthCall
  simp only [h1, h2]

/-- Witness for C1 at a concrete secret, timestamp and GET request. -/
theorem C1_signer_headers_witness :
    base64decode "c2VjcmV0" = some [115, 101, 99, 114, 101, 116] ∧
    asciiBytes ("1600000000.123" ++ "GET" ++ "/orders" ++ (Option.getD none "")) =
      some ((asciiBytes "1600000000.123GET/orders").getD []) ∧
    gdaxAuthCall "mykey" "c2VjcmV0" "mypass" "1600000000.123" ⟨"GET", "/orders", none⟩ =
      some [
        ("CB-ACCESS-SIGN", base64encode (hmacSha256 [115, 101, 99, 114, 101, 116]
          ((asciiBytes "1600000000.123GET/orders").getD []))),
        ("CB-ACCESS-TIMESTAMP", "1600000000.123"),
        ("CB-ACCESS-KEY", "mykey"),
        ("CB-ACCESS-PASSPHRASE", "mypass"),
        ("Content-Type", "application/json")] :=
  ⟨by decide, by decide,
    C1_signer_headers "mykey" "c2VjcmV0" "mypass" "1600000000.123" "GET" "/orders" none
      [115, 101, 99, 114, 101, 116] ((asciiBytes "1600000000.123GET/orders").getD [])
      (by decide) (by decide)⟩

/-- C4 (code bug): placeOrder formats amounts with the format spec :.8f
on a Decimal, which rounds half-even under the default context - the
ROUND_DOWN the source imports is never used.  At 0.000000016 the rendered
value is 0.00000002, and parsing it back yields a value strictly greater
than the original, contradicting the claimed round-toward-zero
round-trip. -/
theorem C4_format8_rounds_up :
    parseDecimal "0.000000016" = some ⟨16, 9⟩ ∧
    formatFixed 8 ⟨16, 9⟩ = "0.00000002" ∧
    parseDecimal "0.00000002" = some ⟨2, 8⟩ ∧
    Dec.val ⟨16, 9⟩ < Dec.val ⟨2, 8⟩ := by
  refine ⟨by decide, by decide, by decide, ?_⟩
  norm_num [Dec.val]

/-- C5: place(limit, buy, 0.5, 30000) builds exactly the claimed order
body, with amounts rendered to 8 fractional digits and post_only true;
and in every built body post_only is false exactly for market orders. -/
theorem C5_place_body :
    placedBody "limit" "buy" "0.5" "30000" = some (Json.obj [
      ("product_id", .str "BTC-USD"), ("type", .str "limit"), ("side", .str "buy"),
      ("size", .str "0.50000000"), ("price", .str "30000.00000000"),
      ("post_only", .bool true)]) ∧
    ∀ (t s : String) (zd pd : Dec),
      (pyIndex (orderBody t s zd pd) "post_only" = some (.bool false) ↔ t = "market") := by
  constructor
  · rfl
  · intro t s zd pd
    simp [orderBody, pyIndex, lookupField]

/-- Witness for the post_only equivalence of C5 at a market order. -/
theorem C5_place_body_witness :
    pyIndex (orderBody "market" "buy" ⟨5, 1⟩ ⟨1, 0⟩) "post_only" = some (.bool false) :=
  (C5_place_body.2 "market" "buy" ⟨5, 1⟩ ⟨1, 0⟩).mpr rfl

/-- Helper: the success condition of api holds whenever the status is
200, or 404 with allow404 set. -/
theorem api_cond_true (a404 : Bool) (resp : Response)
    (hs : resp.status = 200 ∨ (a404 = true ∧ resp.status = 404)) :
    (resp.status == 200 || (a404 && resp.status == 404)) = true := by
  rcases hs with h | ⟨h1, h2⟩
  · simp [h]
  · simp [h1, h2]

/-- Helper: on the success path with an empty body, api returns the empty
mapping. -/
theorem api_ok_empty (e : String) (p : Option Json) (d a404 : Bool) (resp : Response)
    (hs : resp.status = 200 ∨ (a404 = true ∧ resp.status = 404))
    (ht : resp.rawText = "") :
    api e p d a404 resp = some (some (Json.obj []), []) := by
  simp [api, api_cond_true a404 resp hs, ht]

/-- Helper: on the success path with a non-empty body that parses, api
returns the parsed body. -/
theorem api_ok_parsed (e : String) (p : Option Json) (d a404 : Bool) (resp : Response)
    (j : Json)
    (hs : resp.status = 200 ∨ (a404 = true ∧ resp.status = 404))
    (ht : resp.rawText ≠ "") (hp : resp.parsed = some j) :
    api e p d a404 resp = some (some j, []) := by
  have ht2 : (resp.rawText == "") = false := by simp [ht]
  simp [api, api_cond_true a404 resp hs, ht2, hp]

/-- C7: the api wrapper returns the parsed JSON body on a 200 with a
non-empty body, an empty mapping on a 200 with an empty body, treats a
404 the same way when allow404 is set, and never treats a 404 as success
when it is not. -/
theorem C7_api_outcomes (e : String) (p : Option Json) (d a404 : Bool)
    (resp : Response) (j : Json) :
    ((resp.status = 200 ∨ (a404 = true ∧ resp.status = 404)) →
      (resp.rawText = "" → api e p d a404 resp = some (some (Json.obj []), [])) ∧
      (resp.rawText ≠ "" → resp.parsed = some j → api e p d a404 resp = some (some j, []))) ∧
    (a404 = false → resp.status = 404 →
      ∀ (v : Json) (pr : List String), api e p d a404 resp ≠ some (some v, pr)) := by
  constructor
  · intro hs
    exact ⟨api_ok_empty e p d a404 resp hs, api_ok_parsed e p d a404 resp j hs⟩
  · intro ha hst v pr
    have hcond : (resp.status == 200 || (a404 && resp.status == 404)) = false := by
      simp [ha, hst]
    cases hline : apiErrLine resp.parsed <;> simp [api, hcond, hline]

/-- Witness for C7: a 200 with empty body, an allowed 404 with a body,
and a disallowed 404 (same body) that is not a success. -/
theorem C7_api_outcomes_witness :
    api "accounts" none false false ⟨200, "", none⟩ = some (some (Json.obj []), []) ∧
    api "accounts" none false true resp404 = some (some notFoundBody, []) ∧
    api "accounts" none false false resp404 ≠ some (some notFoundBody, []) :=
  ⟨((C7_api_outcomes "accounts" none false false ⟨200, "", none⟩ Json.null).1
      (Or.inl rfl)).1 rfl,
   ((C7_api_outcomes "accounts" none false true resp404 notFoundBody).1
      (Or.inr ⟨rfl, rfl⟩)).2 (by decide) rfl,
   (C7_api_outcomes "accounts" none false false resp404 notFoundBody).2
      rfl rfl notFoundBody []⟩

/-- C6 counterexample: a 500 whose body parses but carries no message
field does not produce the claimed error object at all - the subscript
r.json()[message] raises an uncaught KeyError, so the call crashes
instead of returning the diagnostic. -/
theorem C6_counterexample :
    api "orders" (some (Json.obj [("side", Json.str "buy")])) false false
      ⟨500, "\x7b\"error\": 1\x7d", some (Json.obj [("error", Json.num 1 0)])⟩ = none := by
  rfl

/-- C6 as amended: whenever a non-200, non-whitelisted-404 response has a
body parsing to an object with a string message field, the call prints
(never drops) one diagnostic carrying the endpoint, that server message,
the serialized outbound request body and the raw response text, and
returns None. -/
theorem C6_api_error_amended (e : String) (p : Json) (d a404 : Bool)
    (resp : Response) (fs : List (String × Json)) (msg : String)
    (hs : ¬resp.status = 200) (h4 : ¬(a404 = true ∧ resp.status = 404))
    (hp : resp.parsed = some (Json.obj fs))
    (hm : lookupField fs "message" = some (Json.str msg)) :
    api e (some p) d a404 resp = some (none,
      ["Error getting data from API: " ++ e ++ "\n"
        ++ ("Response: " ++ msg ++ "\n")
        ++ "Params: " ++ jsonDumps p ++ "\n"
        ++ "Raw: " ++ resp.rawText ++ "\n"]) := by
  have hcond : (resp.status == 200 || (a404 && resp.status == 404)) = false := by
    cases a404 with
    | false => simp [hs]
    | true =>
      have : ¬resp.status = 404 := fun h => h4 ⟨rfl, h⟩
      simp [hs, this]
  simp [api, hcond, apiErrLine, hp, pyIndex, hm]

/-- Witness for C6 as amended: the 500 Insufficient funds response of the
specification yields exactly the four-part diagnostic. -/
theorem C6_api_error_amended_witness :
    api "orders" (some (Json.obj [("side", Json.str "buy")])) false false
      ⟨500, "\x7b\"message\": \"Insufficient funds\"\x7d",
        some (Json.obj [("message", Json.str "Insufficient funds")])⟩ = some (none,
      ["Error getting data from API: " ++ "orders" ++ "\n"
        ++ ("Response: " ++ "Insufficient funds" ++ "\n")
        ++ "Params: " ++ jsonDumps (Json.obj [("side", Json.str "buy")]) ++ "\n"
        ++ "Raw: " ++ "\x7b\"message\": \"Insufficient funds\"\x7d" ++ "\n"]) :=
  C6_api_error_amended "orders" (Json.obj [("side", Json.str "buy")]) false false
    ⟨500, "\x7b\"message\": \"Insufficient funds\"\x7d",
      some (Json.obj [("message", Json.str "Insufficient funds")])⟩
    [("message", Json.str "Insufficient funds")] "Insufficient funds"
    (by decide) (by decide) rfl rfl

/-- C3: a 404 response carrying the NotFound body and a 200 response
carrying the same body take getOrder to the same NotFound outcome - a
normal None return (with only the optional not-found notice printed),
not an error and not an exception. -/
theorem C3_getOrder_notfound (oid : String) (s : Bool) (rA rB : Response)
    (hA4 : rA.status = 404) (hAt : rA.rawText ≠ "")
    (hAp : rA.parsed = some notFoundBody)
    (hB2 : rB.status = 200) (hBt : rB.rawText ≠ "")
    (hBp : rB.parsed = some notFoundBody) :
    getOrderM oid s rA = some (none, if s then [] else ["Order not found"]) ∧
    getOrderM oid s rB = getOrderM oid s rA := by
  have hA : api ("orders/" ++ oid) none false true rA = some (some notFoundBody, []) :=
    api_ok_parsed ("orders/" ++ oid) none false true rA notFoundBody
      (Or.inr ⟨rfl, hA4⟩) hAt hAp
  have hB : api ("orders/" ++ oid) none false true rB = some (some notFoundBody, []) :=
    api_ok_parsed ("orders/" ++ oid) none false true rB notFoundBody
      (Or.inl hB2) hBt hBp
  constructor
  · simp [getOrderM, hA, pyContains, pyIndex, notFoundBody, lookupField, isStrEq]
  · simp [getOrderM, hA, hB]

/-- Witness for C3 at the canonical pair of responses: the 404 with the
NotFound body and the 200 with the same body, silently looked up. -/
theorem C3_getOrder_notfound_witness :
    getOrderM "abc" true resp404 = some (none, []) ∧
    getOrderM "abc" true (respOf notFoundBody) = getOrderM "abc" true resp404 :=
  C3_getOrder_notfound "abc" true resp404 (respOf notFoundBody)
    rfl (by decide) rfl rfl (by decide) rfl

/-- C8: when the preliminary lookup of cancelOrder resolves to NotFound
the function returns that NotFound outcome at once with the DELETE never
issued, and any run that did issue the DELETE had a successful lookup. -/
theorem C8_cancel_shortcircuit (oid : String) (s : Bool) (gr dr : Response) :
    (∀ pr, getOrderM oid true gr = some (none, pr) →
      cancelOrderM oid s gr dr =
        some ⟨none, false, pr ++ if s then [] else ["Order does not exist"]⟩) ∧
    (∀ (res : Option Json) (pr : List String),
      cancelOrderM oid s gr dr = some ⟨res, true, pr⟩ →
      ∃ (o : Json) (pr2 : List String), getOrderM oid true gr = some (some o, pr2)) := by
  constructor
  · intro pr h
    simp [cancelOrderM, h]
  · intro res pr h
    cases hg : getOrderM oid true gr with
    | none => simp [cancelOrderM, hg] at h
    | some x =>
      obtain ⟨o?, pr2⟩ := x
      cases o? with
      | none => simp [cancelOrderM, hg] at h
      | some o => exact ⟨o, pr2, rfl⟩

/-- Witness for C8: cancelling against a NotFound lookup returns None
without the DELETE. -/
theorem C8_cancel_shortcircuit_witness :
    cancelOrderM "abc" true resp404 (respOf (Json.obj [])) =
      some ⟨none, false, []⟩ :=
  (C8_cancel_shortcircuit "abc" true resp404 (respOf (Json.obj []))).1 [] rfl

/-- C9 (code bug): every placeOrder invocation with silent set raises an
uncaught UnboundLocalError - the prompt branch is skipped, so the local
variable action is unbound when the send condition evaluates
action.lower() - and therefore never submits the order nor returns the
response the claim promises. -/
theorem C9_place_silent_crashes (otype side size price input : String) (resp : Response) :
    placeOrderM otype side size price true input resp = none := by
  unfold placeOrderM
  cases parseDecimal size <;> cases parseDecimal price <;> simp

/-- C10: when the user declines the confirmation prompt (any answer
other than y, case-insensitively), placeOrder issues no request at all
and returns None. -/
theorem C10_decline_no_request (otype side size price input : String) (resp : Response)
    (sd pd : Dec) (h1 : parseDecimal size = some sd) (h2 : parseDecimal price = some pd)
    (h3 : ¬pyLower input = "y") :
    ∃ pr, placeOrderM otype side size price false input resp =
      some ⟨none, false, true, pr⟩ := by
  have h3b : (pyLower input == "y") = false := by simp [h3]
  refine ⟨["Place " ++ otype ++ " " ++ side ++ " order for "
    ++ formatFixed 8 (Dec.quantize 8 sd) ++ " BTC at $"
    ++ formatFixed 2 (Dec.quantize 8 pd) ++ "/coin (y/N)? ",
    "Failed to place order!"], ?_⟩
  simp [placeOrderM, h1, h2, h3b]

/-- Witness for C10: declining with n leaves the lowercase answer unequal
to y, and the call returns None without a request. -/
theorem C10_decline_no_request_witness :
    parseDecimal "0.5" = some ⟨5, 1⟩ ∧ parseDecimal "30000" = some ⟨30000, 0⟩ ∧
    ¬(pyLower "n" = "y") ∧
    ∃ pr, placeOrderM "limit" "buy" "0.5" "30000" false "n" (respOf (Json.obj [])) =
      some ⟨none, false, true, pr⟩ :=
  ⟨by decide, by decide, by decide,
    C10_decline_no_request "limit" "buy" "0.5" "30000" "n" (respOf (Json.obj []))
      ⟨5, 1⟩ ⟨30000, 0⟩ (by decide) (by decide) (by decide)⟩

/-- C2 counterexample: on the polled status sequence pending, pending,
open, done, the loop does stop at the done snapshot - after three
1-second sleeps - but the function returns None, not the done snapshot:
the claimed return value is not what the source returns. -/
theorem C2_counterexample :
    watchOrderM "oid1" true
      [respOf snapPending, respOf snapPending, respOf snapOpen, respOf snapDone] =
      .finished 3 (some snapDone) none ∧
    WatchOutcome.finished 3 (some snapDone) none ≠
      .finished 3 (some snapDone) (some snapDone) := by
  constructor
  · rfl
  · intro h
    injection h with h1 h2 h3
    exact Option.noConfusion h3

/-- C2 as amended: for an order whose polled snapshots have the status
sequence pending, pending, open, done, watchOrder keeps polling with one
1-second sleep between successive polls exactly while the status is
pending or open, stops at the done snapshot (the first terminal one,
after three sleeps), and then returns None rather than that snapshot. -/
theorem C2_watch_amended (oid : String) (s : Bool) (r1 r2 r3 r4 : Response)
    (o1 o2 o3 o4 : Json) (p1 p2 p3 p4 : List String)
    (h1 : getOrderM oid s r1 = some (some o1, p1))
    (st1 : pyIndex o1 "status" = some (.str "pending"))
    (h2 : getOrderM oid s r2 = some (some o2, p2))
    (st2 : pyIndex o2 "status" = some (.str "pending"))
    (h3 : getOrderM oid s r3 = some (some o3, p3))
    (st3 : pyIndex o3 "status" = some (.str "open"))
    (h4 : getOrderM oid s r4 = some (some o4, p4))
    (st4 : pyIndex o4 "status" = some (.str "done")) :
    watchOrderM oid s [r1, r2, r3, r4] = .finished 3 (some o4) none := by
  simp [watchOrderM, watchLoop, h1, h2, h3, h4, st1, st2, st3, st4, isStrEq]

/-- Witness for C2 as amended at concrete snapshots (funds numeric so the
done-branch print succeeds). -/
theorem C2_watch_amended_witness :
    watchOrderM "oid1" true
      [respOf snapPending, respOf snapPending, respOf snapOpen, respOf snapDone] =
      .finished 3 (some snapDone) none :=
  C2_watch_amended "oid1" true
    (respOf snapPending) (respOf snapPending) (respOf snapOpen) (respOf snapDone)
    snapPending snapPending snapOpen snapDone _ _ _ _
    rfl rfl rfl rfl rfl rfl rfl rfl

end Gdax
